import Mathlib

/-!
Verification of the Autohive integrations repository against its
natural-language specification.

The repository is a collection of Python integration modules.  Each action
validates its inputs, issues HTTP calls through an execution-context `fetch`
primitive, reshapes the vendor JSON response and returns a uniform
success/error envelope.  This file gives a shallow embedding of the parts of
the code the claims are about:

* `PyVal` models Python/JSON runtime values (the values that flow through the
  actions: `None`, booleans, ints, floats, strings, datetimes, `Decimal`s,
  bytes, lists, tuples and string-keyed dicts).
* `serialize_response` / `success_result` / `error_result` embed
  `src/aws/helpers.py`.
* The Humanitix action bodies (`src/humanitix/actions/*.py`), the Uber module
  (`src/uber/uber.py`), the Typeform rate-limit builder
  (`src/typeform/tests/test_rate_limit_retry.py`), the Security Hub actions
  (`src/aws/actions/security_hub.py`) and the Excel workbook action
  (`src/microsoft-excel/microsoft_excel.py`) are embedded below, each next to
  a comment naming its source.

Fetch calls are modelled by explicit oracle parameters: an action model takes
the response (or raised exception, as an `Except`) that the execution
context's `fetch` would produce, and returns the envelope it would build,
together with the requests it issued where a claim needs them.
-/

set_option autoImplicit false

namespace Autohive

/-- Python runtime values as they appear in the integration code: JSON
values plus the extra types (`datetime`/`date`/`Decimal`/`bytes`/tuples)
that `serialize_response` in `src/aws/helpers.py` has to rewrite.
`datetime` and `date` carry their `isoformat()` string, `bytes` carries its
UTF-8 decoded form; dict keys are strings (the only keys the repository
uses). -/
inductive PyVal where
  | none
  | bool (b : Bool)
  | int (n : ℤ)
  | float (q : ℚ)
  | str (s : String)
  | datetime (iso : String)
  | date (iso : String)
  | decimal (q : ℚ)
  | bytes (decoded : String)
  | list (xs : List PyVal)
  | tuple (xs : List PyVal)
  | dict (es : List (String × PyVal))

/-- Python `d.get(k)` on a string-keyed dict: first entry with the key. -/
def pyLookup (es : List (String × PyVal)) (k : String) : Option PyVal :=
  match es with
  | [] => Option.none
  | (k', v) :: rest => if k' = k then some v else pyLookup rest k

/-- Python `d.get(k, default)`. -/
def pyGet (es : List (String × PyVal)) (k : String) (default : PyVal) : PyVal :=
  (pyLookup es k).getD default

/-- Keys of a dict, in order. -/
def dictKeys (es : List (String × PyVal)) : List String := es.map Prod.fst

/-- Overwrite-or-append one key: Python `d[k] = v` on a dict whose entries
are `es` (an existing key keeps its position, a new key is appended). -/
def dictSet (es : List (String × PyVal)) (k : String) (v : PyVal) :
    List (String × PyVal) :=
  match es with
  | [] => [(k, v)]
  | (k', v') :: rest =>
      if k' = k then (k', v) :: rest else (k', v') :: dictSet rest k v

/-- Python dict-literal merge `{**base, k₁: v₁, …}`: each new entry
overwrites in place or is appended, left to right. -/
def dictUpdate (base new : List (String × PyVal)) : List (String × PyVal) :=
  match new with
  | [] => base
  | (k, v) :: rest => dictUpdate (dictSet base k v) rest

mutual

/-- Embeds `serialize_response` from `src/aws/helpers.py` (lines 29-40):
datetimes and dates become their ISO strings, `Decimal`s become floats,
bytes become (decoded) strings, dicts and lists/tuples are rewritten
recursively, everything else is returned unchanged. -/
def serialize_response : PyVal → PyVal
  | .datetime s => .str s
  | .date s => .str s
  | .decimal q => .float q
  | .bytes s => .str s
  | .dict es => .dict (serializeEntries es)
  | .list xs => .list (serializeList xs)
  | .tuple xs => .list (serializeList xs)
  | .none => .none
  | .bool b => .bool b
  | .int n => .int n
  | .float q => .float q
  | .str s => .str s

/-- Elementwise `serialize_response` on a Python list/tuple's elements. -/
def serializeList : List PyVal → List PyVal
  | [] => []
  | x :: xs => serialize_response x :: serializeList xs

/-- Valuewise `serialize_response` on a dict's entries (keys untouched). -/
def serializeEntries : List (String × PyVal) → List (String × PyVal)
  | [] => []
  | (k, v) :: es => (k, serialize_response v) :: serializeEntries es

end

/-- Embeds `success_result` from `src/aws/helpers.py` (lines 43-44):
`ActionResult(data={"result": True, **serialize_response(data)})`.
The returned value is the envelope's `data` dict. -/
def success_result (data : List (String × PyVal)) : PyVal :=
  .dict (dictUpdate [("result", .bool true)] (serializeEntries data))

mutual

/-- True iff the value contains no `datetime`/`date`/`Decimal`/`bytes`/tuple
anywhere, i.e. it is a plain JSON-compatible value. -/
def jsonCompatible : PyVal → Bool
  | .datetime _ => false
  | .date _ => false
  | .decimal _ => false
  | .bytes _ => false
  | .dict es => jsonCompatibleEntries es
  | .list xs => jsonCompatibleList xs
  | .tuple _ => false
  | .none => true
  | .bool _ => true
  | .int _ => true
  | .float _ => true
  | .str _ => true

/-- All elements JSON-compatible. -/
def jsonCompatibleList : List PyVal → Bool
  | [] => true
  | x :: xs => jsonCompatible x && jsonCompatibleList xs

/-- All entry values JSON-compatible. -/
def jsonCompatibleEntries : List (String × PyVal) → Bool
  | [] => true
  | (_, v) :: es => jsonCompatible v && jsonCompatibleEntries es

end

/-- Entries of a dict value (used to state envelope-field properties). -/
def pyDictEntries : PyVal → List (String × PyVal)
  | .dict es => es
  | _ => []

/-! ## Shared Python runtime helpers -/

/-- Python `len(v)`: defined for lists, tuples, strings and dicts, a
`TypeError` otherwise. -/
def pyLen : PyVal → Except String ℤ
  | .list xs => .ok xs.length
  | .tuple xs => .ok xs.length
  | .str s => .ok s.length
  | .dict es => .ok es.length
  | _ => .error "TypeError: object has no length"

/-- Python `v is None`. -/
def isPyNone : PyVal → Bool
  | .none => true
  | _ => false

/-- Python `x or d` for an optional integer input (`None` and `0` are
falsy, so both fall back to the default). -/
def pyOrInt (v : Option ℤ) (d : ℤ) : ℤ :=
  match v with
  | Option.none => d
  | some k => if k = 0 then d else k

/-- Python `isinstance(v, (int, float))`, returning the numeric value as a
rational; `bool` is a subtype of `int` in Python (`True` is `1`). -/
def pyNum? : PyVal → Option ℚ
  | .int n => some (n : ℚ)
  | .float q => some q
  | .bool b => some (if b then 1 else 0)
  | _ => Option.none

/-! ## Humanitix (src/humanitix/actions/checkin.py, events.py, orders.py)

Humanitix action bodies have no `try`/`except`: the model of an action is an
`Except`-valued function of the behaviour of the single `context.fetch` call,
and a raising fetch yields `.error` (the exception propagates out of
`execute`). -/

def HUMANITIX_API_BASE : String := "https://api.humanitix.com/v1"

/-- URL built by `CheckInAction.execute` (checkin.py lines 30-32); the
`override_location` query parameter is appended only when the input is
present and truthy (a non-empty string). -/
def checkInUrl (event_id ticket_id : String) (override_location : Option String) : String :=
  let url := HUMANITIX_API_BASE ++ "/events/" ++ event_id ++ "/tickets/" ++ ticket_id ++ "/check-in"
  match override_location with
  | some loc => if loc.isEmpty then url else url ++ "?overrideLocation=" ++ loc
  | Option.none => url

/-- Embeds `CheckInAction.execute` (checkin.py lines 22-44).  `fetch` maps
the request URL to the vendor response (`.error` models a raised
exception).  The result is the `ActionResult` data dict, or the propagated
exception: the source has no `try`/`except`. -/
def check_in (event_id ticket_id : String) (override_location : Option String)
    (fetch : String → Except String PyVal) : Except String PyVal :=
  match fetch (checkInUrl event_id ticket_id override_location) with
  | .error e => .error e
  | .ok response =>
      let scanning_messages : PyVal :=
        match response with
        | .dict es => pyGet es "scanningMessages" (.list [])
        | _ => .list []
      .ok (.dict [("scanning_messages", scanning_messages)])

/-- Modelled from the spec: `build_error_result` lives in the Humanitix
helpers module, whose source is not under src/ (only its callers in
orders.py/tickets.py/tags.py and the tests are).  Per the spec's envelope
policy and the Humanitix tests, a vendor response that is an object
containing `statusCode` is converted into the failure envelope
`{result: false, statusCode, error, message}` (defaults `""`), and any
other response produces no error — exactly the branch written inline in
events.py lines 49-55 and 82-88. -/
def build_error_result (response : PyVal) : Option PyVal :=
  match response with
  | .dict es =>
      if (pyLookup es "statusCode").isSome then
        some (.dict [("result", .bool false),
                     ("statusCode", pyGet es "statusCode" .none),
                     ("error", pyGet es "error" (.str "")),
                     ("message", pyGet es "message" (.str ""))])
      else Option.none
  | _ => Option.none

/-- Embeds the listing branch of `GetEventsAction.execute`
(events.py lines 61-98), from the point where the vendor `response` is in
hand: the `statusCode` error branch (lines 82-88, identical to
`build_error_result`), then the paginated envelope (lines 90-98).
`page` is `inputs.get("page", 1)` and `page_size` is
`inputs.get("page_size")`; `len(events)` on a non-sized value is a raised
`TypeError`. -/
def getEventsListEnvelope (page : ℤ) (page_size : Option ℤ) (response : PyVal) :
    Except String PyVal :=
  match build_error_result response with
  | some err => .ok err
  | Option.none =>
      let events : PyVal :=
        match response with
        | .dict es => pyGet es "events" (.list [])
        | _ => .list []
      match pyLen events with
      | .error e => .error e
      | .ok n =>
          .ok (.dict [("result", .bool true),
            ("events", events),
            ("total", match response with
              | .dict es => pyGet es "total" (.int n)
              | _ => .int n),
            ("page", match response with
              | .dict es => pyGet es "page" (.int page)
              | _ => .int page),
            ("pageSize", match response with
              | .dict es => pyGet es "pageSize" (.int (pyOrInt page_size 100))
              | _ => .int (pyOrInt page_size 100))])

/-- Embeds the listing branch of `GetOrdersAction.execute`
(orders.py lines 60-91), from the vendor `response`: the
`build_error_result` guard (line 81), then the paginated envelope
(lines 83-91), which is the same normalization as events with the
`orders` key. -/
def getOrdersListEnvelope (page : ℤ) (page_size : Option ℤ) (response : PyVal) :
    Except String PyVal :=
  match build_error_result response with
  | some err => .ok err
  | Option.none =>
      let orders : PyVal :=
        match response with
        | .dict es => pyGet es "orders" (.list [])
        | _ => .list []
      match pyLen orders with
      | .error e => .error e
      | .ok n =>
          .ok (.dict [("result", .bool true),
            ("orders", orders),
            ("total", match response with
              | .dict es => pyGet es "total" (.int n)
              | _ => .int n),
            ("page", match response with
              | .dict es => pyGet es "page" (.int page)
              | _ => .int page),
            ("pageSize", match response with
              | .dict es => pyGet es "pageSize" (.int (pyOrInt page_size 100))
              | _ => .int (pyOrInt page_size 100))])

/-! ## Uber (src/uber/uber.py) -/

/-- Exceptions inside an Uber action body: the module's own `UberAPIError`
(message, error_type) or any other exception carrying its `str(e)`. -/
inductive UberExn where
  | uberAPIError (message : String) (error_type : String)
  | pyError (s : String)

/-- Regex word character (`\w`): letter, digit or underscore. -/
def isWordChar (c : Char) : Bool := c.isAlphanum || c = '_'

/-- A `\b` boundary holds before/after a word character when the
neighbouring character (if any) is not a word character. -/
def boundaryOk (c : Option Char) : Bool :=
  match c with
  | Option.none => true
  | some c => !(isWordChar c)

/-- Scan for the first match of the pattern `\b([45]\d{2})\b` used by
`classify_error` (uber.py line 86), carrying the previous character for
the left boundary. -/
def findStatusAux (prev : Option Char) : List Char → Option String
  | [] => Option.none
  | c :: rest =>
      match
        (if (c == '4' || c == '5') && boundaryOk prev then
          match rest with
          | d1 :: d2 :: after =>
              if d1.isDigit && d2.isDigit &&
                  (match after with | [] => true | a :: _ => !(isWordChar a)) then
                some (String.mk [c, d1, d2])
              else Option.none
          | _ => Option.none
        else Option.none) with
      | some s => some s
      | Option.none => findStatusAux (some c) rest

/-- First HTTP-style 4xx/5xx status code embedded in the error string:
`re.search(r'\b([45]\d{2})\b', error_str)`. -/
def extractStatusCode (s : String) : Option String := findStatusAux Option.none s.data

/-- Python `hay.startswith(needle)` on character lists. -/
def listStartsWith : List Char → List Char → Bool
  | _, [] => true
  | [], _ :: _ => false
  | c :: cs, d :: ds => c == d && listStartsWith cs ds

/-- Python `needle in hay` on character lists. -/
def listHasSub (needle : List Char) : List Char → Bool
  | [] => needle.isEmpty
  | c :: rest => listStartsWith (c :: rest) needle || listHasSub needle rest

/-- Python substring test `needle in hay` on strings. -/
def strContains (hay needle : String) : Bool := listHasSub needle.data hay.data

/-- Python `s.lower()` (characterwise lowercasing). -/
def strLower (s : String) : String := String.mk (s.data.map Char.toLower)

/-- Python `s.startswith(t)` on strings. -/
def strStartsWith (s t : String) : Bool := listStartsWith s.data t.data

/-- Embeds `classify_error` (uber.py lines 81-100): lowercase the message,
extract the first 4xx/5xx status code, then classify through the ordered
branches. -/
def classify_error (error_str : String) : String :=
  let error_lower := strLower error_str
  let status_code := extractStatusCode error_str
  if status_code == some "401" || strContains error_lower "unauthorized" then
    "auth_error"
  else if status_code == some "429" || strContains error_lower "too many requests"
      || strContains error_lower "rate limit" then
    "rate_limited"
  else if status_code == some "400" || status_code == some "422"
      || strContains error_lower "validation" || strContains error_lower "invalid" then
    "validation_error"
  else if status_code == some "404" || strContains error_lower "not found" then
    "not_found"
  else if (match status_code with
           | some c => strStartsWith c "5"
           | Option.none => false) then
    "server_error"
  else
    "api_error"

/-- Embeds `validate_coordinates` (uber.py lines 107-125); `lat`/`lng` are
the raw `inputs.get(...)` values (`PyVal.none` models Python `None`);
`field_pre` is the source's field-name prefix argument.  Returns an error
message when invalid, as in the source. -/
def validate_coordinates (lat lng : PyVal) (field_pre : String) : Option String :=
  if isPyNone lat || isPyNone lng then
    some (field_pre ++ "latitude and longitude are required")
  else
    match pyNum? lat, pyNum? lng with
    | some la, some ln =>
        if la < -90 ∨ la > 90 then
          some (field_pre ++ "latitude must be between -90 and 90")
        else if ln < -180 ∨ ln > 180 then
          some (field_pre ++ "longitude must be between -180 and 180")
        else Option.none
    | _, _ => some (field_pre ++ "latitude and longitude must be numbers")

/-- Embeds `validate_seat_count` (uber.py lines 128-147): `None` defaults
to 2, a non-integer raises `UberAPIError`, an integer is clamped to
`max(1, min(seat_count, 2))` (Python `bool` is an `int`: `True` is 1). -/
def validate_seat_count (seat_count : PyVal) : Except UberExn ℤ :=
  match seat_count with
  | .none => .ok 2
  | .int n => .ok (max 1 (min n 2))
  | .bool b => .ok (max 1 (min (if b then (1 : ℤ) else 0) 2))
  | _ => .error (.uberAPIError "seat_count must be an integer (1 or 2)" "validation_error")

def UBER_API_BASE_URL : String := "https://api.uber.com"

def API_VERSION : String := "v1.2"

/-- Outbound request descriptor built by an Uber action before `fetch`. -/
structure FetchRequest where
  url : String
  method : String
  params : List (String × PyVal)
  body : List (String × PyVal)

/-- Embeds the `handle_uber_errors` decorator (uber.py lines 47-78): an
`UberAPIError` becomes a failure envelope with its own message and type,
any other exception is classified via `classify_error`; a normal return
passes through.  No exception escapes the wrapper. -/
def handle_uber_errors (action_name : String) (core : Except UberExn PyVal) : PyVal :=
  match core with
  | .ok v => v
  | .error (.uberAPIError msg ty) =>
      .dict [("result", .bool false), ("error", .str msg), ("error_type", .str ty)]
  | .error (.pyError s) =>
      .dict [("result", .bool false),
             ("error", .str ("Uber API error in " ++ action_name ++ ": " ++ s)),
             ("error_type", .str (classify_error s))]

/-- Body of `GetProductsAction.execute` (uber.py lines 240-263) before the
decorator: validate the coordinates, then issue the single fetch.  `fetch`
maps the request to the vendor response dict or a raised exception; the
returned list records the requests actually issued. -/
def getProductsCore (lat lng : PyVal)
    (fetch : FetchRequest → Except String (List (String × PyVal))) :
    Except UberExn PyVal × List FetchRequest :=
  match validate_coordinates lat lng "" with
  | some err => (.error (.uberAPIError err "validation_error"), [])
  | Option.none =>
      let req : FetchRequest :=
        { url := UBER_API_BASE_URL ++ "/" ++ API_VERSION ++ "/products"
          method := "GET"
          params := [("latitude", lat), ("longitude", lng)]
          body := [] }
      match fetch req with
      | .error e => (.error (.pyError e), [req])
      | .ok es =>
          (.ok (.dict [("products", pyGet es "products" (.list [])),
                       ("result", .bool true)]), [req])

/-- The `get_products` action: `handle_uber_errors` applied to the body. -/
def get_products (lat lng : PyVal)
    (fetch : FetchRequest → Except String (List (String × PyVal))) :
    PyVal × List FetchRequest :=
  let (core, reqs) := getProductsCore lat lng fetch
  (handle_uber_errors "get_products" core, reqs)

/-- Body of `GetPriceEstimateAction.execute` (uber.py lines 270-305):
validate start and end coordinates, build the query params, clamp
`seat_count` through `validate_seat_count` when provided, then fetch. -/
def getPriceEstimateCore (start_lat start_lng end_lat end_lng seat_count : PyVal)
    (fetch : FetchRequest → Except String (List (String × PyVal))) :
    Except UberExn PyVal × List FetchRequest :=
  match validate_coordinates start_lat start_lng "start_" with
  | some err => (.error (.uberAPIError err "validation_error"), [])
  | Option.none =>
  match validate_coordinates end_lat end_lng "end_" with
  | some err => (.error (.uberAPIError err "validation_error"), [])
  | Option.none =>
      let params0 : List (String × PyVal) :=
        [("start_latitude", start_lat), ("start_longitude", start_lng),
         ("end_latitude", end_lat), ("end_longitude", end_lng)]
      let paramsE : Except UberExn (List (String × PyVal)) :=
        if isPyNone seat_count then .ok params0
        else (validate_seat_count seat_count).map fun n =>
          dictSet params0 "seat_count" (.int n)
      match paramsE with
      | .error e => (.error e, [])
      | .ok params =>
          let req : FetchRequest :=
            { url := UBER_API_BASE_URL ++ "/" ++ API_VERSION ++ "/estimates/price"
              method := "GET"
              params := params
              body := [] }
          match fetch req with
          | .error e => (.error (.pyError e), [req])
          | .ok es =>
              (.ok (.dict [("prices", pyGet es "prices" (.list [])),
                           ("result", .bool true)]), [req])

/-- The `get_price_estimate` action: decorator applied to the body. -/
def get_price_estimate (start_lat start_lng end_lat end_lng seat_count : PyVal)
    (fetch : FetchRequest → Except String (List (String × PyVal))) :
    PyVal × List FetchRequest :=
  let (core, reqs) :=
    getPriceEstimateCore start_lat start_lng end_lat end_lng seat_count fetch
  (handle_uber_errors "get_price_estimate" core, reqs)

/-! ## Typeform rate-limit advisory
(src/typeform/tests/test_rate_limit_retry.py lines 28-76) -/

def MAX_RATE_LIMIT_RETRIES : ℤ := 3

/-- Error message of the still-retryable branch (lines 41-44). -/
def rateLimitRetryableError (retry_after_seconds retry_attempt : ℤ) : String :=
  "Rate limit exceeded. Please wait " ++ toString retry_after_seconds ++
  " seconds before retrying. This is attempt " ++ toString (retry_attempt + 1) ++
  " of " ++ toString (MAX_RATE_LIMIT_RETRIES + 1) ++ " allowed attempts."

/-- Retry instructions of the still-retryable branch (lines 45-49). -/
def rateLimitRetryableInstructions (retry_after_seconds retry_attempt : ℤ) : String :=
  "To retry: wait at least " ++ toString retry_after_seconds ++
  " seconds, then call this action again with _retry_attempt=" ++
  toString (retry_attempt + 1) ++ ". You have " ++
  toString (MAX_RATE_LIMIT_RETRIES - retry_attempt) ++ " retries remaining."

/-- Error message of the exhausted branch (lines 51-55). -/
def rateLimitExhaustedError (retry_after_seconds : ℤ) : String :=
  "Rate limit exceeded and maximum retry attempts (" ++
  toString MAX_RATE_LIMIT_RETRIES ++
  ") exhausted. The Typeform API requires waiting " ++
  toString retry_after_seconds ++
  " seconds between requests. Please try again later or reduce request frequency."

/-- Retry instructions of the exhausted branch (lines 56-59). -/
def rateLimitExhaustedInstructions : String :=
  "Maximum retries exceeded. Do not retry automatically. " ++
  "Inform the user that the Typeform API rate limit has been reached."

/-- Embeds `create_rate_limit_response` (test_rate_limit_retry.py lines
31-76).  `empty_data` models the `empty_data or {}` dict (the caller's
normal success-shape defaults); the response dict starts from it and then
writes the fixed advisory fields, and an `action` tag is added only when
`action_name` is truthy (non-empty). -/
def create_rate_limit_response (retry_after_seconds retry_attempt : ℤ)
    (action_name : String) (empty_data : List (String × PyVal)) : PyVal :=
  let can_retry : Bool := retry_attempt < MAX_RATE_LIMIT_RETRIES
  let error_message :=
    if can_retry then rateLimitRetryableError retry_after_seconds retry_attempt
    else rateLimitExhaustedError retry_after_seconds
  let retry_instructions :=
    if can_retry then rateLimitRetryableInstructions retry_after_seconds retry_attempt
    else rateLimitExhaustedInstructions
  let response_data := dictUpdate empty_data
    [("result", .bool false),
     ("error", .str error_message),
     ("error_type", .str "rate_limit"),
     ("retry_after_seconds", .int retry_after_seconds),
     ("retry_attempt", .int retry_attempt),
     ("max_retries", .int MAX_RATE_LIMIT_RETRIES),
     ("can_retry", .bool can_retry),
     ("retry_instructions", .str retry_instructions)]
  let response_data :=
    if action_name.isEmpty then response_data
    else dictSet response_data "action" (.str action_name)
  .dict response_data

/-! ## AWS Security Hub (src/aws/actions/security_hub.py) and helpers -/

/-- Python exceptions raised inside the AWS action bodies and caught by
their outer `try`/`except`.  Claims never reach the message text of these,
so only the exception kind is modelled (a `KeyError` carries its key). -/
inductive PyExn where
  | keyError (key : String)
  | typeError
  | attrError

/-- Approximate `str(e)` for a modelled exception; no claim exercises
these branches. -/
def pyExnMessage : PyExn → String
  | .keyError k => k
  | .typeError => "TypeError"
  | .attrError => "AttributeError"

/-- Embeds `error_result` from `src/aws/helpers.py` (lines 47-57) for a
non-boto exception (no `response` attribute): `error_code` stays `""`. -/
def error_result (e : PyExn) : PyVal :=
  .dict [("result", .bool false),
         ("error", .str (pyExnMessage e)),
         ("error_code", .str "")]

/-- The `FindingIdentifiers` list built from the looked-up findings
(security_hub.py lines 100-103): `f["Id"]` / `f["ProductArn"]` raise
`KeyError` when missing, and a non-dict finding raises. -/
def buildFindingIdentifiers : List PyVal → Except PyExn (List PyVal)
  | [] => .ok []
  | .dict fs :: rest =>
      match pyLookup fs "Id", pyLookup fs "ProductArn" with
      | some i, some p =>
          (buildFindingIdentifiers rest).map
            (fun r => PyVal.dict [("Id", i), ("ProductArn", p)] :: r)
      | Option.none, _ => .error (.keyError "Id")
      | _, Option.none => .error (.keyError "ProductArn")
  | _ :: _ => .error .typeError

/-- Embeds `UpdateFindingWorkflowAction.execute` (security_hub.py lines
79-132).  `lookupResp` is the behaviour of the `get_findings` lookup call
and `batchOracle` that of `batch_update_findings`, as a function of the
kwargs the source passes it (the built `FindingIdentifiers`, the workflow
status and the optional note); both return dicts or raise.  The returned
flag records whether the batch update call was issued. -/
def update_finding_workflow (finding_arns : List String)
    (workflow_status : String) (note : Option String)
    (lookupResp : Except PyExn (List (String × PyVal)))
    (batchOracle : List PyVal → String → Option String →
      Except PyExn (List (String × PyVal))) : PyVal × Bool :=
  match lookupResp with
  | .error e => (error_result e, false)
  | .ok resp =>
      let findingsVal := pyGet resp "Findings" (.list [])
      match (match findingsVal with
             | .list xs => buildFindingIdentifiers xs
             | .tuple xs => buildFindingIdentifiers xs
             | _ => .error .typeError) with
      | .error e => (error_result e, false)
      | .ok ids =>
          if ids.isEmpty then
            (success_result [("processed_findings", .list []),
              ("unprocessed_findings", .list (finding_arns.map fun arn =>
                 PyVal.dict
                   [("FindingIdentifier", .dict [("Id", .str arn)]),
                    ("ErrorCode", .str "FindingNotFound"),
                    ("ErrorMessage", .str "Finding not found")]))], false)
          else
            match batchOracle ids workflow_status note with
            | .error e => (error_result e, true)
            | .ok b =>
                (success_result
                  [("processed_findings", pyGet b "ProcessedFindings" (.list [])),
                   ("unprocessed_findings", pyGet b "UnprocessedFindings" (.list []))],
                 true)

/-- One enriched insight (security_hub.py lines 159-173): the four fields
are read with `.get` (default `None`); the secondary
`get_insight_results` call sits in its own `try`/`except`, so a missing
`InsightArn` key or a failing call degrades `results` to `None`, while a
successful call stores `result_response.get("InsightResults", {})`. -/
def enrichInsightItem (oracle : PyVal → Except PyExn (List (String × PyVal)))
    (ies : List (String × PyVal)) : PyVal :=
  let results : PyVal :=
    match pyLookup ies "InsightArn" with
    | Option.none => .none
    | some arnv =>
        match oracle arnv with
        | .error _ => .none
        | .ok rr => pyGet rr "InsightResults" (.dict [])
  .dict [("insight_arn", pyGet ies "InsightArn" .none),
         ("name", pyGet ies "Name" .none),
         ("filters", pyGet ies "Filters" .none),
         ("group_by_attribute", pyGet ies "GroupByAttribute" .none),
         ("results", results)]

/-- The per-insight loop (security_hub.py lines 157-173); a non-dict
insight raises outside the inner `try` and aborts the whole action. -/
def enrichInsights (oracle : PyVal → Except PyExn (List (String × PyVal))) :
    List PyVal → Except PyExn (List PyVal)
  | [] => .ok []
  | .dict ies :: rest =>
      (enrichInsights oracle rest).map (enrichInsightItem oracle ies :: ·)
  | _ :: _ => .error .attrError

/-- Embeds `GetInsightsAction.execute` (security_hub.py lines 145-180).
`primaryResp` is the behaviour of the `get_insights` call; `oracle` maps
an insight's `InsightArn` value to the behaviour of its
`get_insight_results` call. -/
def get_insights (primaryResp : Except PyExn (List (String × PyVal)))
    (oracle : PyVal → Except PyExn (List (String × PyVal))) : PyVal :=
  match primaryResp with
  | .error e => error_result e
  | .ok resp =>
      match (match pyGet resp "Insights" (.list []) with
             | .list xs => enrichInsights oracle xs
             | .tuple xs => enrichInsights oracle xs
             | _ => .error .typeError) with
      | .error e => error_result e
      | .ok enriched =>
          success_result [("insights", .list enriched),
                          ("next_token", pyGet resp "NextToken" .none)]

/-! ## Microsoft Excel (src/microsoft-excel/microsoft_excel.py) -/

/-- One item of a workbook sub-listing: the named fields read with `.get`
(default `None`), as in microsoft_excel.py lines 93-99 / 109-116 /
126-131. -/
def excelSubItem (fields : List String) (ies : List (String × PyVal)) : PyVal :=
  .dict (fields.map fun f => (f, pyGet ies f .none))

/-- The accumulation loop of a sub-listing: items are appended until the
first non-dict element, whose attribute access raises inside the inner
`try` and is swallowed, keeping the items accumulated so far. -/
def excelCollect (fields : List String) : List PyVal → List PyVal
  | [] => []
  | .dict ies :: rest => excelSubItem fields ies :: excelCollect fields rest
  | _ :: _ => []

/-- One non-fatal sub-fetch of `GetWorkbook.execute`: a raising fetch (or
a `value` that is not a sequence, whose iteration raises inside the inner
`try`) leaves the list at its `[]` default. -/
def excelSubList (resp : Except String (List (String × PyVal)))
    (fields : List String) : List PyVal :=
  match resp with
  | .error _ => []
  | .ok es =>
      match pyGet es "value" (.list []) with
      | .list items => excelCollect fields items
      | .tuple items => excelCollect fields items
      | _ => []

/-- Embeds `GetWorkbook.execute` (microsoft_excel.py lines 78-153).
`fileResp` is the behaviour of the primary file-info fetch (a raised
exception reaches the outer `except` and yields the failure envelope);
the three secondary fetches are non-fatal. -/
def excel_get_workbook (fileResp : Except String (List (String × PyVal)))
    (wsResp tablesResp namesResp : Except String (List (String × PyVal))) : PyVal :=
  match fileResp with
  | .error e => .dict [("result", .bool false), ("error", .str e)]
  | .ok fd =>
      .dict [("workbook", .dict
                [("id", pyGet fd "id" .none),
                 ("name", pyGet fd "name" .none),
                 ("webUrl", pyGet fd "webUrl" .none),
                 ("lastModifiedDateTime", pyGet fd "lastModifiedDateTime" .none)]),
             ("worksheets", .list (excelSubList wsResp
                ["id", "name", "position", "visibility"])),
             ("tables", .list (excelSubList tablesResp
                ["id", "name", "showHeaders", "showTotals", "style"])),
             ("named_ranges", .list (excelSubList namesResp
                ["name", "value", "type"])),
             ("result", .bool true)]

/-- Concrete secondary-fetch oracle for witness runs: the arn "arn:a"
fails, every other value succeeds with one insight-results record. -/
def insightOracleW : PyVal → Except PyExn (List (String × PyVal))
  | .str s =>
      if s = "arn:a" then .error .typeError
      else .ok [("InsightResults", .dict [("n", .int 1)])]
  | _ => .ok [("InsightResults", .dict [("n", .int 1)])]

/-! # Theorems

Shared lemmas about the dict model and the AWS serializer, followed by one
theorem per claim (with witnesses and counterexamples where called for). -/

mutual

theorem serialize_response_idem : ∀ x, serialize_response (serialize_response x) = serialize_response x
  | .none => rfl
  | .bool _ => rfl
  | .int _ => rfl
  | .float _ => rfl
  | .str _ => rfl
  | .datetime _ => rfl
  | .date _ => rfl
  | .decimal _ => rfl
  | .bytes _ => rfl
  | .list xs => by simp [serialize_response, serializeList_idem xs]
  | .tuple xs => by simp [serialize_response, serializeList_idem xs]
  | .dict es => by simp [serialize_response, serializeEntries_idem es]

theorem serializeList_idem : ∀ xs, serializeList (serializeList xs) = serializeList xs
  | [] => rfl
  | x :: xs => by simp [serializeList, serialize_response_idem x, serializeList_idem xs]

theorem serializeEntries_idem : ∀ es, serializeEntries (serializeEntries es) = serializeEntries es
  | [] => rfl
  | (_, v) :: es => by simp [serializeEntries, serialize_response_idem v, serializeEntries_idem es]

end

mutual

theorem jsonCompatible_serialize : ∀ x, jsonCompatible (serialize_response x) = true
  | .none => rfl
  | .bool _ => rfl
  | .int _ => rfl
  | .float _ => rfl
  | .str _ => rfl
  | .datetime _ => rfl
  | .date _ => rfl
  | .decimal _ => rfl
  | .bytes _ => rfl
  | .list xs => by simp [serialize_response, jsonCompatible, jsonCompatibleList_serialize xs]
  | .tuple xs => by simp [serialize_response, jsonCompatible, jsonCompatibleList_serialize xs]
  | .dict es => by simp [serialize_response, jsonCompatible, jsonCompatibleEntries_serialize es]

theorem jsonCompatibleList_serialize : ∀ xs, jsonCompatibleList (serializeList xs) = true
  | [] => rfl
  | x :: xs => by
      simp [serializeList, jsonCompatibleList, jsonCompatible_serialize x,
        jsonCompatibleList_serialize xs]

theorem jsonCompatibleEntries_serialize : ∀ es, jsonCompatibleEntries (serializeEntries es) = true
  | [] => rfl
  | (_, v) :: es => by
      simp [serializeEntries, jsonCompatibleEntries, jsonCompatible_serialize v,
        jsonCompatibleEntries_serialize es]

end

theorem serializeList_eq_map (xs : List PyVal) :
    serializeList xs = xs.map serialize_response := by
  induction xs with
  | nil => rfl
  | cons x xs ih => simp [serializeList, ih]

theorem serializeEntries_eq_map (es : List (String × PyVal)) :
    serializeEntries es = es.map (fun kv => (kv.1, serialize_response kv.2)) := by
  induction es with
  | nil => rfl
  | cons kv es ih => cases kv; simp [serializeEntries, ih]

theorem pyLookup_dictSet_self (es : List (String × PyVal)) (k : String) (v : PyVal) :
    pyLookup (dictSet es k v) k = some v := by
  induction es with
  | nil => simp [dictSet, pyLookup]
  | cons kv es ih =>
      cases kv with
      | mk k' v' =>
          by_cases h : k' = k
          · simp [dictSet, pyLookup, h]
          · simp [dictSet, pyLookup, h, ih]

theorem pyLookup_dictSet_ne (es : List (String × PyVal)) (k k' : String) (v : PyVal)
    (h : k' ≠ k) : pyLookup (dictSet es k v) k' = pyLookup es k' := by
  induction es with
  | nil =>
      simp only [dictSet, pyLookup]
      rw [if_neg (fun hh => h hh.symm)]
  | cons kv es ih =>
      cases kv with
      | mk k0 v0 =>
          by_cases h0 : k0 = k
          · subst h0
            simp only [dictSet, if_pos rfl, pyLookup]
            rw [if_neg (fun hh => h hh.symm), if_neg (fun hh => h hh.symm)]
          · simp only [dictSet, if_neg h0, pyLookup]
            by_cases h1 : k0 = k'
            · rw [if_pos h1, if_pos h1]
            · rw [if_neg h1, if_neg h1, ih]

theorem pyLookup_dictUpdate_not_mem (base new : List (String × PyVal)) (k : String)
    (h : k ∉ dictKeys new) : pyLookup (dictUpdate base new) k = pyLookup base k := by
  induction new generalizing base with
  | nil => rfl
  | cons kv rest ih =>
      cases kv with
      | mk k0 v0 =>
          simp only [dictKeys, List.map_cons, List.mem_cons] at h
          push_neg at h
          simp only [dictUpdate]
          rw [ih (dictSet base k0 v0) (by simpa [dictKeys] using h.2)]
          exact pyLookup_dictSet_ne base k0 k v0 h.1

theorem mem_dictKeys_dictSet (es : List (String × PyVal)) (k k' : String) (v : PyVal)
    (h : k' ∈ dictKeys es) : k' ∈ dictKeys (dictSet es k v) := by
  induction es with
  | nil => simp [dictKeys] at h
  | cons kv es ih =>
      cases kv with
      | mk k0 v0 =>
          by_cases h0 : k0 = k
          · have hkeys : dictKeys (dictSet ((k0, v0) :: es) k v) = dictKeys ((k0, v0) :: es) := by
              simp [dictSet, if_pos h0, dictKeys]
            rw [hkeys]; exact h
          · simp only [dictSet, if_neg h0, dictKeys, List.map_cons, List.mem_cons] at h ⊢
            rcases h with h | h
            · exact Or.inl h
            · exact Or.inr (by simpa [dictKeys] using ih (by simpa [dictKeys] using h))

theorem mem_dictKeys_dictUpdate (base new : List (String × PyVal)) (k : String)
    (h : k ∈ dictKeys base) : k ∈ dictKeys (dictUpdate base new) := by
  induction new generalizing base with
  | nil => exact h
  | cons kv rest ih =>
      cases kv with
      | mk k0 v0 => exact ih _ (mem_dictKeys_dictSet base k0 k v0 h)

/-- A dict whose entries are all serialization fixed points, entrywise. -/
theorem serializeEntries_fixed_of_values (es : List (String × PyVal))
    (h : ∀ kv ∈ es, serialize_response kv.2 = kv.2) : serializeEntries es = es := by
  induction es with
  | nil => rfl
  | cons kv es ih =>
      cases kv with
      | mk k v =>
          simp only [serializeEntries]
          rw [h (k, v) (List.mem_cons_self _ _), ih (fun kv hkv => h kv (List.mem_cons_of_mem _ hkv))]

theorem serialize_fixed_of_mem_serializeEntries (es : List (String × PyVal)) :
    ∀ kv ∈ serializeEntries es, serialize_response kv.2 = kv.2 := by
  intro kv hkv
  rw [serializeEntries_eq_map] at hkv
  rcases List.mem_map.mp hkv with ⟨kv0, _, rfl⟩
  exact serialize_response_idem kv0.2

theorem dictSet_values_sub (es : List (String × PyVal)) (k : String) (v : PyVal) :
    ∀ kv ∈ dictSet es k v, kv.2 = v ∨ kv ∈ es := by
  induction es with
  | nil => intro kv hkv; simp [dictSet] at hkv; simp [hkv]
  | cons kv0 es ih =>
      cases kv0 with
      | mk k0 v0 =>
          intro kv hkv
          by_cases h0 : k0 = k
          · simp only [dictSet, if_pos h0] at hkv
            rcases List.mem_cons.mp hkv with h | h
            · simp [h]
            · simp [h]
          · simp only [dictSet, if_neg h0] at hkv
            rcases List.mem_cons.mp hkv with h | h
            · simp [h]
            · rcases ih kv h with h' | h'
              · exact Or.inl h'
              · exact Or.inr (List.mem_cons_of_mem _ h')

theorem dictUpdate_values_fixed (base new : List (String × PyVal))
    (hb : ∀ kv ∈ base, serialize_response kv.2 = kv.2)
    (hn : ∀ kv ∈ new, serialize_response kv.2 = kv.2) :
    ∀ kv ∈ dictUpdate base new, serialize_response kv.2 = kv.2 := by
  induction new generalizing base with
  | nil => exact hb
  | cons kv0 rest ih =>
      cases kv0 with
      | mk k0 v0 =>
          intro kv hkv
          refine ih (dictSet base k0 v0) ?_ (fun kv h => hn kv (List.mem_cons_of_mem _ h)) kv hkv
          intro kv h
          rcases dictSet_values_sub base k0 v0 kv h with h' | h'
          · rw [h']; exact hn (k0, v0) (List.mem_cons_self _ _)
          · exact hb kv h'

/-- C10 helper: `success_result` envelopes are serialization fixed points. -/
theorem serialize_success_result (d : List (String × PyVal)) :
    serialize_response (success_result d) = success_result d := by
  simp only [success_result, serialize_response]
  congr 1
  apply serializeEntries_fixed_of_values
  apply dictUpdate_values_fixed
  · intro kv hkv
    simp only [List.mem_singleton] at hkv
    subst hkv
    rfl
  · exact serialize_fixed_of_mem_serializeEntries d

/-- C10: the AWS response serializer is idempotent, its output contains only
JSON-compatible values (datetimes/dates become ISO strings, Decimals become
floats, bytes become strings, containers are rewritten recursively, all else
unchanged), and every `success_result` envelope is a fixed point of
serialization. -/
theorem serialize_response_idempotent (x : PyVal) (d : List (String × PyVal)) :
    serialize_response (serialize_response x) = serialize_response x ∧
    jsonCompatible (serialize_response x) = true ∧
    serialize_response (success_result d) = success_result d :=
  ⟨serialize_response_idem x, jsonCompatible_serialize x, serialize_success_result d⟩

/-- C1 (evaluation of the code at the failing input): the check-in action
called with `event_id="evt_001"`, `ticket_id="tkt_001"` and a vendor fetch
returning `{"scanningMessages": [{"header": "Welcome"}]}` returns the
envelope `{"scanning_messages": [{"header": "Welcome"}]}` — against the
spec scenario and the action's own test, the envelope carries the list
under the key `scanning_messages`, and has neither a `result` key nor a
`scanningMessages` key. -/
theorem check_in_scenario :
    check_in "evt_001" "tkt_001" Option.none
        (fun _ => .ok (.dict [("scanningMessages", .list [.dict [("header", .str "Welcome")]])]))
      = .ok (.dict [("scanning_messages", .list [.dict [("header", .str "Welcome")]])]) ∧
    pyLookup [("scanning_messages", PyVal.list [.dict [("header", .str "Welcome")]])] "result"
      = Option.none ∧
    pyLookup [("scanning_messages", PyVal.list [.dict [("header", .str "Welcome")]])] "scanningMessages"
      = Option.none := by
  refine ⟨rfl, ?_, ?_⟩ <;> simp [pyLookup]

/-- C8: when the lookup returns zero matching findings,
`update_finding_workflow` returns a success envelope whose
`processed_findings` is empty and whose `unprocessed_findings` has exactly
one `FindingNotFound` entry per input ARN, and the batch update call is
never issued. -/
theorem update_finding_workflow_no_matches (arns : List String) (ws : String)
    (note : Option String) (resp : List (String × PyVal))
    (oracle : List PyVal → String → Option String → Except PyExn (List (String × PyVal)))
    (h : pyGet resp "Findings" (.list []) = .list []) :
    update_finding_workflow arns ws note (.ok resp) oracle =
      (.dict [("result", .bool true),
              ("processed_findings", .list []),
              ("unprocessed_findings", .list (arns.map fun arn =>
                 PyVal.dict
                   [("FindingIdentifier", .dict [("Id", .str arn)]),
                    ("ErrorCode", .str "FindingNotFound"),
                    ("ErrorMessage", .str "Finding not found")]))],
       false) := by
  simp only [update_finding_workflow, h, buildFindingIdentifiers, List.isEmpty_nil, if_true,
    success_result, serializeEntries, serialize_response, serializeList_eq_map, List.map_map]
  have hmk : (serialize_response ∘ fun arn =>
      PyVal.dict [("FindingIdentifier", .dict [("Id", .str arn)]),
                  ("ErrorCode", .str "FindingNotFound"),
                  ("ErrorMessage", .str "Finding not found")]) = fun arn =>
      PyVal.dict [("FindingIdentifier", .dict [("Id", .str arn)]),
                  ("ErrorCode", .str "FindingNotFound"),
                  ("ErrorMessage", .str "Finding not found")] :=
    funext fun _ => rfl
  rw [hmk]
  simp [dictUpdate, dictSet]

/-- C8 witness: concrete run with two ARNs and a lookup response with no
`Findings`. -/
theorem update_finding_workflow_no_matches_witness :
    update_finding_workflow ["arn-1", "arn-2"] "RESOLVED" Option.none (.ok [])
        (fun _ _ _ => .ok []) =
      (.dict [("result", .bool true),
              ("processed_findings", .list []),
              ("unprocessed_findings", .list (["arn-1", "arn-2"].map fun arn =>
                 PyVal.dict
                   [("FindingIdentifier", .dict [("Id", .str arn)]),
                    ("ErrorCode", .str "FindingNotFound"),
                    ("ErrorMessage", .str "Finding not found")]))],
       false) :=
  update_finding_workflow_no_matches ["arn-1", "arn-2"] "RESOLVED" Option.none []
    (fun _ _ _ => .ok []) rfl

/-- C4 counterexample: at `retry_attempt = 3` (exhausted, with
`max_retries = 3`) the `retry_instructions` text is the exhausted wording,
and it does not contain the exact string "do not retry" — the text says
"Do not retry automatically." with a capital D, so the verbatim-containment
part of the claim is false at this input. -/
theorem rate_limit_verbatim_counterexample :
    pyLookup (pyDictEntries (create_rate_limit_response 60 3 "get_form" [("form", .dict [])]))
        "retry_instructions" = some (.str rateLimitExhaustedInstructions) ∧
    strContains rateLimitExhaustedInstructions "do not retry" = false ∧
    strContains rateLimitExhaustedInstructions "Do not retry" = true := by
  refine ⟨rfl, by decide, by decide⟩

/-- C4 (amended): `create_rate_limit_response` (with `max_retries = 3`) sets
`can_retry` to true exactly when `retry_attempt < max_retries` and false
otherwise; the `retry_instructions` text differs between the retryable and
exhausted states and contains "do not retry" up to letter case (verbatim it
contains "Do not retry") when exhausted — in particular for
`retry_attempt = 3`; and every key of the supplied `empty_data` mapping is
passed through into the response. -/
theorem create_rate_limit_response_contract (ras ra : ℤ) (an : String)
    (ed : List (String × PyVal)) :
    pyLookup (pyDictEntries (create_rate_limit_response ras ra an ed)) "can_retry"
      = some (.bool (decide (ra < MAX_RATE_LIMIT_RETRIES))) ∧
    (ra < MAX_RATE_LIMIT_RETRIES →
      pyLookup (pyDictEntries (create_rate_limit_response ras ra an ed)) "retry_instructions"
        = some (.str (rateLimitRetryableInstructions ras ra))) ∧
    (¬ ra < MAX_RATE_LIMIT_RETRIES →
      pyLookup (pyDictEntries (create_rate_limit_response ras ra an ed)) "retry_instructions"
        = some (.str rateLimitExhaustedInstructions)) ∧
    strContains (strLower rateLimitExhaustedInstructions) "do not retry" = true ∧
    rateLimitRetryableInstructions ras ra ≠ rateLimitExhaustedInstructions ∧
    (∀ k, k ∈ dictKeys ed → k ∈ dictKeys (pyDictEntries (create_rate_limit_response ras ra an ed))) := by
  refine ⟨?_, ?_, ?_, by decide, ?_, ?_⟩
  · by_cases han : an.isEmpty <;>
      simp +decide [create_rate_limit_response, han, dictUpdate, pyDictEntries,
        pyLookup_dictSet_ne, pyLookup_dictSet_self]
  · intro h
    by_cases han : an.isEmpty <;>
      simp +decide [create_rate_limit_response, han, dictUpdate, pyDictEntries,
        pyLookup_dictSet_ne, pyLookup_dictSet_self, h]
  · intro h
    by_cases han : an.isEmpty <;>
      simp +decide [create_rate_limit_response, han, dictUpdate, pyDictEntries,
        pyLookup_dictSet_ne, pyLookup_dictSet_self, h]
  · intro heq
    have h1 : (rateLimitRetryableInstructions ras ra).data.head? = some 'T' := rfl
    rw [heq] at h1
    have h2 : rateLimitExhaustedInstructions.data.head? = some 'M' := rfl
    rw [h2] at h1
    exact absurd h1 (by decide)
  · intro k hk
    simp only [create_rate_limit_response, pyDictEntries]
    by_cases han : an.isEmpty <;> simp only [han, if_true, if_false, Bool.false_eq_true]
    · exact mem_dictKeys_dictUpdate ed _ k hk
    · exact mem_dictKeys_dictSet _ "action" k _ (mem_dictKeys_dictUpdate ed _ k hk)

/-- C4 witness: the amended contract applied at the test scenarios
(attempt 0 of a `list_forms` advisory, attempt 3 of a `get_form`
advisory), with the implications discharged concretely. -/
theorem create_rate_limit_response_contract_witness :
    pyLookup (pyDictEntries (create_rate_limit_response 37 0 "list_forms"
        [("forms", .list []), ("total_items", .int 0)])) "retry_instructions"
      = some (.str (rateLimitRetryableInstructions 37 0)) ∧
    pyLookup (pyDictEntries (create_rate_limit_response 60 3 "get_form" [("form", .dict [])]))
        "retry_instructions" = some (.str rateLimitExhaustedInstructions) ∧
    "forms" ∈ dictKeys (pyDictEntries (create_rate_limit_response 37 0 "list_forms"
        [("forms", .list []), ("total_items", .int 0)])) :=
  ⟨(create_rate_limit_response_contract 37 0 "list_forms" _).2.1 (by decide),
   (create_rate_limit_response_contract 60 3 "get_form" _).2.2.1 (by decide),
   (create_rate_limit_response_contract 37 0 "list_forms" _).2.2.2.2.2 "forms" (by decide)⟩

/-- Align a boolean `if` with a propositional `if` through an iff. -/
theorem ite_bool_congr {α : Sort _} (b : Bool) (p : Prop) [Decidable p]
    (h : b = true ↔ p) (x y : α) : (if b then x else y) = if p then x else y := by
  by_cases hp : p
  · rw [if_pos (h.mpr hp), if_pos hp]
  · rw [if_neg (fun hb => hp (h.mp hb)), if_neg hp]

/-- C5: `classify_error` follows the documented ordered mapping — status 401
or substring "unauthorized" gives auth_error; else status 429 or "too many
requests"/"rate limit" gives rate_limited; else status 400/422 or
"validation"/"invalid" gives validation_error; else status 404 or
"not found" gives not_found; else any other 5xx status gives server_error;
else api_error — and always returns one of the six taxonomy values. -/
theorem classify_error_taxonomy (s : String) :
    classify_error s =
      (if extractStatusCode s = some "401" ∨ strContains (strLower s) "unauthorized" = true then
        "auth_error"
      else if extractStatusCode s = some "429" ∨ strContains (strLower s) "too many requests" = true
          ∨ strContains (strLower s) "rate limit" = true then
        "rate_limited"
      else if extractStatusCode s = some "400" ∨ extractStatusCode s = some "422"
          ∨ strContains (strLower s) "validation" = true
          ∨ strContains (strLower s) "invalid" = true then
        "validation_error"
      else if extractStatusCode s = some "404" ∨ strContains (strLower s) "not found" = true then
        "not_found"
      else if strStartsWith ((extractStatusCode s).getD "") "5" = true then
        "server_error"
      else "api_error") ∧
    classify_error s ∈ (["auth_error", "rate_limited", "validation_error", "not_found",
      "server_error", "api_error"] : List String) := by
  have key : classify_error s =
      (if extractStatusCode s = some "401" ∨ strContains (strLower s) "unauthorized" = true then
        "auth_error"
      else if extractStatusCode s = some "429" ∨ strContains (strLower s) "too many requests" = true
          ∨ strContains (strLower s) "rate limit" = true then
        "rate_limited"
      else if extractStatusCode s = some "400" ∨ extractStatusCode s = some "422"
          ∨ strContains (strLower s) "validation" = true
          ∨ strContains (strLower s) "invalid" = true then
        "validation_error"
      else if extractStatusCode s = some "404" ∨ strContains (strLower s) "not found" = true then
        "not_found"
      else if strStartsWith ((extractStatusCode s).getD "") "5" = true then
        "server_error"
      else "api_error") := by
    simp only [classify_error]
    rw [ite_bool_congr
          (extractStatusCode s == some "401" || strContains (strLower s) "unauthorized")
          (extractStatusCode s = some "401" ∨ strContains (strLower s) "unauthorized" = true)
          (by simp) _ _]
    rw [ite_bool_congr
          (extractStatusCode s == some "429" || strContains (strLower s) "too many requests"
            || strContains (strLower s) "rate limit")
          (extractStatusCode s = some "429" ∨ strContains (strLower s) "too many requests" = true
            ∨ strContains (strLower s) "rate limit" = true)
          (by simp [or_assoc]) _ _]
    rw [ite_bool_congr
          (extractStatusCode s == some "400" || extractStatusCode s == some "422"
            || strContains (strLower s) "validation" || strContains (strLower s) "invalid")
          (extractStatusCode s = some "400" ∨ extractStatusCode s = some "422"
            ∨ strContains (strLower s) "validation" = true
            ∨ strContains (strLower s) "invalid" = true)
          (by simp [or_assoc]) _ _]
    rw [ite_bool_congr
          (extractStatusCode s == some "404" || strContains (strLower s) "not found")
          (extractStatusCode s = some "404" ∨ strContains (strLower s) "not found" = true)
          (by simp) _ _]
    rw [ite_bool_congr
          (match extractStatusCode s with
            | some c => strStartsWith c "5"
            | Option.none => false)
          (strStartsWith ((extractStatusCode s).getD "") "5" = true)
          (by
            cases h : extractStatusCode s with
            | none => simp [h, show strStartsWith "" "5" = false from rfl]
            | some c => simp [h]) _ _]
  refine ⟨key, ?_⟩
  rw [key]
  split
  · simp
  split
  · simp
  split
  · simp
  split
  · simp
  split
  · simp
  · simp

/-- C5 witness: the mapping applied at one concrete error string per
taxonomy value, discharging the ordered hypotheses by evaluation. -/
theorem classify_error_taxonomy_witness :
    classify_error "401 Client Error: Unauthorized" = "auth_error" ∧
    classify_error "HTTP 429: slow down" = "rate_limited" ∧
    classify_error "invalid request body" = "validation_error" ∧
    classify_error "404" = "not_found" ∧
    classify_error "500 Server Error" = "server_error" ∧
    classify_error "connection reset" = "api_error" := by
  refine ⟨?_, ?_, ?_, ?_, ?_, ?_⟩
  · rw [(classify_error_taxonomy "401 Client Error: Unauthorized").1,
      if_pos (Or.inl (by decide))]
  · rw [(classify_error_taxonomy "HTTP 429: slow down").1,
      if_neg (by decide), if_pos (Or.inl (by decide))]
  · rw [(classify_error_taxonomy "invalid request body").1,
      if_neg (by decide), if_neg (by decide),
      if_pos (Or.inr (Or.inr (Or.inr (by decide))))]
  · rw [(classify_error_taxonomy "404").1,
      if_neg (by decide), if_neg (by decide), if_neg (by decide),
      if_pos (Or.inl (by decide))]
  · rw [(classify_error_taxonomy "500 Server Error").1,
      if_neg (by decide), if_neg (by decide), if_neg (by decide), if_neg (by decide),
      if_pos (by decide)]
  · rw [(classify_error_taxonomy "connection reset").1,
      if_neg (by decide), if_neg (by decide), if_neg (by decide), if_neg (by decide),
      if_neg (by decide)]

/-- C6: for every integer seat_count, `validate_seat_count` returns
`max(1, min(seat_count, 2))`, and when seat_count is provided to the price
estimate action (with valid coordinates) the clamped value is exactly what
appears under `seat_count` in the single outbound request's params. -/
theorem seat_count_clamped (n : ℤ) (sla sln ela eln : ℚ)
    (h1 : -90 ≤ sla) (h2 : sla ≤ 90) (h3 : -180 ≤ sln) (h4 : sln ≤ 180)
    (h5 : -90 ≤ ela) (h6 : ela ≤ 90) (h7 : -180 ≤ eln) (h8 : eln ≤ 180)
    (fetch : FetchRequest → Except String (List (String × PyVal))) :
    validate_seat_count (.int n) = .ok (max 1 (min n 2)) ∧
    (get_price_estimate (.float sla) (.float sln) (.float ela) (.float eln) (.int n) fetch).2.map
        (fun r => pyLookup r.params "seat_count")
      = [some (.int (max 1 (min n 2)))] := by
  constructor
  · rfl
  · have hlat1 : ¬(sla < -90 ∨ sla > 90) := by push_neg; exact ⟨h1, h2⟩
    have hlng1 : ¬(sln < -180 ∨ sln > 180) := by push_neg; exact ⟨h3, h4⟩
    have hlat2 : ¬(ela < -90 ∨ ela > 90) := by push_neg; exact ⟨h5, h6⟩
    have hlng2 : ¬(eln < -180 ∨ eln > 180) := by push_neg; exact ⟨h7, h8⟩
    have hs : validate_coordinates (.float sla) (.float sln) "start_" = Option.none := by
      simp [validate_coordinates, isPyNone, pyNum?, hlat1, hlng1]
    have he : validate_coordinates (.float ela) (.float eln) "end_" = Option.none := by
      simp [validate_coordinates, isPyNone, pyNum?, hlat2, hlng2]
    simp [get_price_estimate, getPriceEstimateCore, hs, he, isPyNone,
      validate_seat_count, Except.map]
    split <;> simp [pyLookup_dictSet_self]

/-- C6 witness: seat_count 5 is clamped to 2, seat_count 0 to 1, both in
the clamp function and in the constructed outbound request params. -/
theorem seat_count_clamped_witness :
    validate_seat_count (.int 5) = .ok 2 ∧
    (get_price_estimate (.float 0) (.float 0) (.float 1) (.float 1) (.int 5)
        (fun _ => .ok [])).2.map (fun r => pyLookup r.params "seat_count")
      = [some (.int 2)] ∧
    validate_seat_count (.int 0) = .ok 1 ∧
    (get_price_estimate (.float 0) (.float 0) (.float 1) (.float 1) (.int 0)
        (fun _ => .ok [])).2.map (fun r => pyLookup r.params "seat_count")
      = [some (.int 1)] := by
  refine ⟨?_, ?_, ?_, ?_⟩
  · rw [(seat_count_clamped 5 0 0 1 1 (by norm_num) (by norm_num) (by norm_num) (by norm_num)
      (by norm_num) (by norm_num) (by norm_num) (by norm_num) (fun _ => .ok [])).1]
    rfl
  · rw [(seat_count_clamped 5 0 0 1 1 (by norm_num) (by norm_num) (by norm_num) (by norm_num)
      (by norm_num) (by norm_num) (by norm_num) (by norm_num) (fun _ => .ok [])).2]
    rfl
  · rw [(seat_count_clamped 0 0 0 1 1 (by norm_num) (by norm_num) (by norm_num) (by norm_num)
      (by norm_num) (by norm_num) (by norm_num) (by norm_num) (fun _ => .ok [])).1]
    rfl
  · rw [(seat_count_clamped 0 0 0 1 1 (by norm_num) (by norm_num) (by norm_num) (by norm_num)
      (by norm_num) (by norm_num) (by norm_num) (by norm_num) (fun _ => .ok [])).2]
    rfl

/-- C7: an out-of-range latitude or longitude makes the products action
return `result = false` with `error_type = "validation_error"`, and no
fetch call is performed before returning. -/
theorem invalid_coordinates_rejected (lq gq : ℚ)
    (fetch : FetchRequest → Except String (List (String × PyVal)))
    (h : lq < -90 ∨ lq > 90 ∨ gq < -180 ∨ gq > 180) :
    pyLookup (pyDictEntries (get_products (.float lq) (.float gq) fetch).1) "result"
      = some (.bool false) ∧
    pyLookup (pyDictEntries (get_products (.float lq) (.float gq) fetch).1) "error_type"
      = some (.str "validation_error") ∧
    (get_products (.float lq) (.float gq) fetch).2 = [] := by
  by_cases hla : lq < -90 ∨ lq > 90
  · simp +decide [get_products, getProductsCore, validate_coordinates, isPyNone, pyNum?, hla,
      handle_uber_errors, pyDictEntries, pyLookup]
  · have hlg : gq < -180 ∨ gq > 180 := by tauto
    simp +decide [get_products, getProductsCore, validate_coordinates, isPyNone, pyNum?, hla,
      hlg, handle_uber_errors, pyDictEntries, pyLookup]

/-- C7 witness: the spec scenario `{"latitude": 95, "longitude": 10}` is
rejected as a validation error with no fetch performed. -/
theorem invalid_coordinates_rejected_witness :
    pyLookup (pyDictEntries (get_products (.float 95) (.float 10) (fun _ => .ok [])).1) "result"
      = some (.bool false) ∧
    pyLookup (pyDictEntries (get_products (.float 95) (.float 10) (fun _ => .ok [])).1) "error_type"
      = some (.str "validation_error") ∧
    (get_products (.float 95) (.float 10) (fun _ => .ok [])).2 = [] :=
  invalid_coordinates_rejected 95 10 (fun _ => .ok []) (Or.inr (Or.inl (by norm_num)))

/-- C3 counterexample: the Humanitix check-in action has no `try`/`except`,
so an exception raised by the fetch call propagates out of `execute`
instead of being returned as a failure envelope — the claim is false for
this action. -/
theorem fetch_exception_propagates_counterexample :
    check_in "evt_001" "tkt_001" Option.none (fun _ => .error "ConnectionError: boom")
      = .error "ConnectionError: boom" := rfl

/-- C3 (amended): actions wrapped in an error handler (here the Uber
products action under `handle_uber_errors`) turn every exception raised by
fetch into a classified failure envelope, but the Humanitix actions catch
nothing: a fetch exception propagates out of `execute` unchanged. -/
theorem error_boundary_amended (lat lng : PyVal) (e : String)
    (hv : validate_coordinates lat lng "" = Option.none) :
    (get_products lat lng (fun _ => .error e)).1 =
      .dict [("result", .bool false),
             ("error", .str ("Uber API error in get_products: " ++ e)),
             ("error_type", .str (classify_error e))] ∧
    (∀ ev ti ol, check_in ev ti ol (fun _ => .error e) = .error e) := by
  constructor
  · simp [get_products, getProductsCore, hv, handle_uber_errors]
  · intro ev ti ol; rfl

/-- C3 witness: a concrete raising fetch under the Uber wrapper and under
the Humanitix check-in action. -/
theorem error_boundary_amended_witness :
    (get_products (.float 0) (.float 0) (fun _ => .error "boom")).1 =
      .dict [("result", .bool false),
             ("error", .str ("Uber API error in get_products: " ++ "boom")),
             ("error_type", .str (classify_error "boom"))] ∧
    check_in "evt_009" "tkt_009" Option.none (fun _ => .error "boom") = .error "boom" :=
  ⟨(error_boundary_amended (.float 0) (.float 0) "boom" (by decide)).1,
   (error_boundary_amended (.float 0) (.float 0) "boom" (by decide)).2 "evt_009" "tkt_009"
     Option.none⟩

/-- C2 counterexample: for the bare-array vendor response `["x"]` the events
listing envelope carries `events = []` and `total = 0` — not the array
itself and its length 1 as the claim states (the source reads
`response.get("events", []) if isinstance(response, dict) else []`, so a
bare array is discarded). -/
theorem bare_array_pagination_counterexample :
    getEventsListEnvelope 1 Option.none (.list [.str "x"])
      = .ok (.dict [("result", .bool true), ("events", .list []), ("total", .int 0),
          ("page", .int 1), ("pageSize", .int 100)]) ∧
    PyVal.list ([] : List PyVal) ≠ PyVal.list [.str "x"] ∧
    PyVal.int 0 ≠ PyVal.int 1 := by
  refine ⟨rfl, by simp, by simp⟩

/-- C2 (amended): for the Humanitix paginated list actions, a bare-array
vendor response yields `result = true` with an empty item list, `total = 0`,
`page` the requested page and `pageSize` the requested size or 100 (the
array's contents are discarded); an enveloped object that omits
`total`/`page`/`pageSize` defaults them to the item-list length, the
requested page, and the requested size or 100, with the item list taken
from the named key (defaulting to `[]`). -/
theorem humanitix_pagination_defaults (page : ℤ) (ps : Option ℤ) (xs : List PyVal)
    (es fs : List (String × PyVal)) (items items2 : List PyVal)
    (hsc : pyLookup es "statusCode" = Option.none)
    (hev : (pyLookup es "events").getD (.list []) = .list items)
    (hto : pyLookup es "total" = Option.none)
    (hpg : pyLookup es "page" = Option.none)
    (hps : pyLookup es "pageSize" = Option.none)
    (hsc2 : pyLookup fs "statusCode" = Option.none)
    (hor : (pyLookup fs "orders").getD (.list []) = .list items2)
    (hto2 : pyLookup fs "total" = Option.none)
    (hpg2 : pyLookup fs "page" = Option.none)
    (hps2 : pyLookup fs "pageSize" = Option.none) :
    getEventsListEnvelope page ps (.list xs)
      = .ok (.dict [("result", .bool true), ("events", .list []), ("total", .int 0),
          ("page", .int page), ("pageSize", .int (pyOrInt ps 100))]) ∧
    getOrdersListEnvelope page ps (.list xs)
      = .ok (.dict [("result", .bool true), ("orders", .list []), ("total", .int 0),
          ("page", .int page), ("pageSize", .int (pyOrInt ps 100))]) ∧
    getEventsListEnvelope page ps (.dict es)
      = .ok (.dict [("result", .bool true), ("events", .list items),
          ("total", .int items.length), ("page", .int page),
          ("pageSize", .int (pyOrInt ps 100))]) ∧
    getOrdersListEnvelope page ps (.dict fs)
      = .ok (.dict [("result", .bool true), ("orders", .list items2),
          ("total", .int items2.length), ("page", .int page),
          ("pageSize", .int (pyOrInt ps 100))]) := by
  refine ⟨rfl, rfl, ?_, ?_⟩
  · have h1 : build_error_result (.dict es) = Option.none := by
      simp [build_error_result, hsc]
    simp [getEventsListEnvelope, h1, pyGet, hev, hto, hpg, hps, pyLen]
  · have h1 : build_error_result (.dict fs) = Option.none := by
      simp [build_error_result, hsc2]
    simp [getOrdersListEnvelope, h1, pyGet, hor, hto2, hpg2, hps2, pyLen]

/-- C2 witness: concrete bare-array and enveloped responses for both the
events and the orders listings, at page 2 with page_size 10. -/
theorem humanitix_pagination_defaults_witness :
    getEventsListEnvelope 2 (some 10) (.list [.str "a"])
      = .ok (.dict [("result", .bool true), ("events", .list []), ("total", .int 0),
          ("page", .int 2), ("pageSize", .int 10)]) ∧
    getOrdersListEnvelope 2 (some 10) (.list [.str "a"])
      = .ok (.dict [("result", .bool true), ("orders", .list []), ("total", .int 0),
          ("page", .int 2), ("pageSize", .int 10)]) ∧
    getEventsListEnvelope 2 (some 10) (.dict [("events", .list [.dict []])])
      = .ok (.dict [("result", .bool true), ("events", .list [.dict []]),
          ("total", .int 1), ("page", .int 2), ("pageSize", .int 10)]) ∧
    getOrdersListEnvelope 2 (some 10) (.dict [("orders", .list [])])
      = .ok (.dict [("result", .bool true), ("orders", .list []),
          ("total", .int 0), ("page", .int 2), ("pageSize", .int 10)]) := by
  have h := humanitix_pagination_defaults 2 (some 10) [.str "a"]
    [("events", .list [.dict []])] [("orders", .list [])] [.dict []] []
    rfl rfl rfl rfl rfl rfl rfl rfl rfl rfl
  refine ⟨?_, ?_, ?_, ?_⟩
  · rw [h.1]; norm_num [pyOrInt]
  · rw [h.2.1]; norm_num [pyOrInt]
  · rw [h.2.2.1]; norm_num [pyOrInt]
  · rw [h.2.2.2]; norm_num [pyOrInt]

/-- The insight-enrichment loop on a list of dict insights is the
elementwise enrichment. -/
theorem enrichInsights_dicts (oracle : PyVal → Except PyExn (List (String × PyVal)))
    (xss : List (List (String × PyVal))) :
    enrichInsights oracle (xss.map PyVal.dict) = .ok (xss.map (enrichInsightItem oracle)) := by
  induction xss with
  | nil => rfl
  | cons x xs ih => simp [enrichInsights, ih, Except.map]

/-- The workbook sub-listing loop on a list of dict items is the
elementwise field extraction. -/
theorem excelCollect_dicts (fields : List String) (items : List (List (String × PyVal))) :
    excelCollect fields (items.map PyVal.dict) = items.map (excelSubItem fields) := by
  induction items with
  | nil => rfl
  | cons x xs ih => simp [excelCollect, ih]

/-- C9: for the two enriching actions, a failing tolerated secondary fetch
leaves the envelope at `result = true` and degrades only the affected
payload to its default, while the successfully fetched parts are still
returned: Security Hub `get_insights` keeps every insight, with `results`
degraded to `None` exactly on the insights whose `get_insight_results`
call fails, and Excel `excel_get_workbook` keeps the workbook info while a
failed worksheets/tables/names sub-fetch leaves that list empty. -/
theorem tolerated_secondary_failures
    (resp : List (String × PyVal)) (oracle : PyVal → Except PyExn (List (String × PyVal)))
    (xss : List (List (String × PyVal)))
    (hins : pyGet resp "Insights" (.list []) = .list (xss.map PyVal.dict))
    (fd : List (String × PyVal))
    (wsResp tbResp nmResp : Except String (List (String × PyVal))) :
    (pyLookup (pyDictEntries (get_insights (.ok resp) oracle)) "result" = some (.bool true) ∧
     pyLookup (pyDictEntries (get_insights (.ok resp) oracle)) "insights"
       = some (.list (xss.map fun ies => serialize_response (enrichInsightItem oracle ies))) ∧
     (∀ ies arnv ex, pyLookup ies "InsightArn" = some arnv → oracle arnv = .error ex →
        pyLookup (pyDictEntries (serialize_response (enrichInsightItem oracle ies))) "results"
          = some PyVal.none) ∧
     (∀ ies arnv rr, pyLookup ies "InsightArn" = some arnv → oracle arnv = .ok rr →
        pyLookup (pyDictEntries (serialize_response (enrichInsightItem oracle ies))) "results"
          = some (serialize_response (pyGet rr "InsightResults" (.dict []))))) ∧
    (pyLookup (pyDictEntries (excel_get_workbook (.ok fd) wsResp tbResp nmResp)) "result"
       = some (.bool true) ∧
     (∀ e, wsResp = .error e →
        pyLookup (pyDictEntries (excel_get_workbook (.ok fd) wsResp tbResp nmResp)) "worksheets"
          = some (.list [])) ∧
     (∀ e, tbResp = .error e →
        pyLookup (pyDictEntries (excel_get_workbook (.ok fd) wsResp tbResp nmResp)) "tables"
          = some (.list [])) ∧
     (∀ e, nmResp = .error e →
        pyLookup (pyDictEntries (excel_get_workbook (.ok fd) wsResp tbResp nmResp)) "named_ranges"
          = some (.list [])) ∧
     pyLookup (pyDictEntries (excel_get_workbook (.ok fd) wsResp tbResp nmResp)) "workbook"
       = some (.dict [("id", pyGet fd "id" .none), ("name", pyGet fd "name" .none),
                      ("webUrl", pyGet fd "webUrl" .none),
                      ("lastModifiedDateTime", pyGet fd "lastModifiedDateTime" .none)]) ∧
     (∀ (ws : List (String × PyVal)) (wss : List (List (String × PyVal))),
        wsResp = .ok ws → pyGet ws "value" (.list []) = .list (wss.map PyVal.dict) →
        pyLookup (pyDictEntries (excel_get_workbook (.ok fd) wsResp tbResp nmResp)) "worksheets"
          = some (.list (wss.map (excelSubItem ["id", "name", "position", "visibility"]))))) := by
  have hget : get_insights (.ok resp) oracle = success_result
      [("insights", .list (xss.map (enrichInsightItem oracle))),
       ("next_token", pyGet resp "NextToken" .none)] := by
    simp [get_insights, hins, enrichInsights_dicts]
  refine ⟨⟨?_, ?_, ?_, ?_⟩, ?_, ?_, ?_, ?_, ?_, ?_⟩
  · rw [hget]
    simp +decide [success_result, serializeEntries, dictUpdate, dictSet, pyDictEntries, pyLookup]
  · rw [hget]
    simp +decide [success_result, serializeEntries, dictUpdate, dictSet, pyDictEntries, pyLookup,
      serialize_response, serializeList_eq_map, Function.comp]
  · intro ies arnv ex hlook horacle
    simp +decide [enrichInsightItem, hlook, horacle, serialize_response, serializeEntries,
      pyDictEntries, pyLookup]
  · intro ies arnv rr hlook horacle
    simp +decide [enrichInsightItem, hlook, horacle, serialize_response, serializeEntries,
      pyDictEntries, pyLookup]
  · simp +decide [excel_get_workbook, pyDictEntries, pyLookup]
  · intro e he
    rw [he]
    simp +decide [excel_get_workbook, excelSubList, pyDictEntries, pyLookup]
  · intro e he
    rw [he]
    simp +decide [excel_get_workbook, excelSubList, pyDictEntries, pyLookup]
  · intro e he
    rw [he]
    simp +decide [excel_get_workbook, excelSubList, pyDictEntries, pyLookup]
  · simp +decide [excel_get_workbook, pyDictEntries, pyLookup]
  · intro ws wss hws hval
    rw [hws]
    simp +decide [excel_get_workbook, excelSubList, hval, excelCollect_dicts,
      pyDictEntries, pyLookup]

/-- C9 witness: two insights, the first with a failing results fetch and
the second succeeding, and a workbook whose worksheets sub-fetch fails in
one run and succeeds in another while the tables fetch fails there. -/
theorem tolerated_secondary_failures_witness :
    pyLookup (pyDictEntries (get_insights
        (.ok [("Insights", .list [.dict [("InsightArn", .str "arn:a")],
                                  .dict [("InsightArn", .str "arn:b")]])])
        insightOracleW)) "result" = some (.bool true) ∧
    pyLookup (pyDictEntries (serialize_response
        (enrichInsightItem insightOracleW [("InsightArn", .str "arn:a")]))) "results"
      = some PyVal.none ∧
    pyLookup (pyDictEntries (serialize_response
        (enrichInsightItem insightOracleW [("InsightArn", .str "arn:b")]))) "results"
      = some (serialize_response (pyGet [("InsightResults", .dict [("n", .int 1)])]
          "InsightResults" (.dict []))) ∧
    pyLookup (pyDictEntries (excel_get_workbook (.ok [("id", .str "wb1")])
        (.error "boom") (.error "boom") (.ok [("value", .list [])]))) "result"
      = some (.bool true) ∧
    pyLookup (pyDictEntries (excel_get_workbook (.ok [("id", .str "wb1")])
        (.error "boom") (.error "boom") (.ok [("value", .list [])]))) "worksheets"
      = some (.list []) ∧
    pyLookup (pyDictEntries (excel_get_workbook (.ok [("id", .str "wb1")])
        (.ok [("value", .list [.dict [("id", .str "s1")]])]) (.error "boom")
        (.ok [("value", .list [])]))) "worksheets"
      = some (.list [excelSubItem ["id", "name", "position", "visibility"]
          [("id", .str "s1")]]) := by
  refine ⟨?_, ?_, ?_, ?_, ?_, ?_⟩
  · exact (tolerated_secondary_failures
      [("Insights", .list [.dict [("InsightArn", .str "arn:a")],
                           .dict [("InsightArn", .str "arn:b")]])] insightOracleW
      [[("InsightArn", .str "arn:a")], [("InsightArn", .str "arn:b")]] rfl
      [("id", .str "wb1")] (.error "boom") (.error "boom") (.ok [("value", .list [])])).1.1
  · exact (tolerated_secondary_failures
      [("Insights", .list [.dict [("InsightArn", .str "arn:a")],
                           .dict [("InsightArn", .str "arn:b")]])] insightOracleW
      [[("InsightArn", .str "arn:a")], [("InsightArn", .str "arn:b")]] rfl
      [("id", .str "wb1")] (.error "boom") (.error "boom")
      (.ok [("value", .list [])])).1.2.2.1 [("InsightArn", .str "arn:a")] (.str "arn:a")
      PyExn.typeError rfl rfl
  · exact (tolerated_secondary_failures
      [("Insights", .list [.dict [("InsightArn", .str "arn:a")],
                           .dict [("InsightArn", .str "arn:b")]])] insightOracleW
      [[("InsightArn", .str "arn:a")], [("InsightArn", .str "arn:b")]] rfl
      [("id", .str "wb1")] (.error "boom") (.error "boom")
      (.ok [("value", .list [])])).1.2.2.2 [("InsightArn", .str "arn:b")] (.str "arn:b")
      [("InsightResults", .dict [("n", .int 1)])] rfl rfl
  · exact (tolerated_secondary_failures
      [("Insights", .list [.dict [("InsightArn", .str "arn:a")],
                           .dict [("InsightArn", .str "arn:b")]])] insightOracleW
      [[("InsightArn", .str "arn:a")], [("InsightArn", .str "arn:b")]] rfl
      [("id", .str "wb1")] (.error "boom") (.error "boom")
      (.ok [("value", .list [])])).2.1
  · exact (tolerated_secondary_failures
      [("Insights", .list [.dict [("InsightArn", .str "arn:a")],
                           .dict [("InsightArn", .str "arn:b")]])] insightOracleW
      [[("InsightArn", .str "arn:a")], [("InsightArn", .str "arn:b")]] rfl
      [("id", .str "wb1")] (.error "boom") (.error "boom")
      (.ok [("value", .list [])])).2.2.1 "boom" rfl
  · exact (tolerated_secondary_failures
      [("Insights", .list [.dict [("InsightArn", .str "arn:a")],
                           .dict [("InsightArn", .str "arn:b")]])] insightOracleW
      [[("InsightArn", .str "arn:a")], [("InsightArn", .str "arn:b")]] rfl
      [("id", .str "wb1")] (.ok [("value", .list [.dict [("id", .str "s1")]])])
      (.error "boom") (.ok [("value", .list [])])).2.2.2.2.2.2
      [("value", .list [.dict [("id", .str "s1")]])] [[("id", .str "s1")]] rfl rfl

end Autohive
